import Mathlib

/-!
Verification development for the AstroWebMaps planetary vector geometry
engine (Helpers/AstroGeometry.js and Map/AstroBoundingBox.js).

The JavaScript source works on WKT strings parsed into coordinate arrays.
The shallow embedding below represents a parsed geometry directly as a
tagged union over lists of (longitude, latitude) coordinate pairs, and
translates each geometry routine from the source into a Lean function on
that representation.  Coordinate arithmetic that the source performs on
JS numbers is modelled over the rationals (exact arithmetic) for the
combinatorial routines, and over the reals for the trigonometric
routines (the polar stereographic transforms and the Vincenty distance
iteration); floating-point rounding is not modelled.
-/

namespace AstroGeometry

/-- A parsed WKT geometry: the six type tags supported by the source
(POINT, MULTIPOINT, LINESTRING, MULTILINESTRING, POLYGON, MULTIPOLYGON),
each holding (lon, lat) coordinate pairs.  Polygons hold a single outer
ring (holes are unsupported by the source). -/
inductive Geom where
  | point (p : ℚ × ℚ)
  | multipoint (ps : List (ℚ × ℚ))
  | linestring (ps : List (ℚ × ℚ))
  | multilinestring (ls : List (List (ℚ × ℚ)))
  | polygon (ring : List (ℚ × ℚ))
  | multipolygon (rings : List (List (ℚ × ℚ)))
  deriving DecidableEq, Repr

/-- All coordinate pairs of a geometry, in order. -/
def Geom.coords : Geom → List (ℚ × ℚ)
  | .point p => [p]
  | .multipoint ps => ps
  | .linestring ps => ps
  | .multilinestring ls => ls.flatMap id
  | .polygon ring => ring
  | .multipolygon rings => rings.flatMap id

/-- Maximum of a list of rationals (OpenLayers extent maximum; the
source never takes the extent of an empty geometry, the `0` default for
an empty list is junk). -/
def listMax : List ℚ → ℚ
  | [] => 0
  | x :: xs => xs.foldl max x

/-- Minimum of a list of rationals (OpenLayers extent minimum). -/
def listMin : List ℚ → ℚ
  | [] => 0
  | x :: xs => xs.foldl min x

/-- Longitudes of a geometry. -/
def Geom.lons (g : Geom) : List ℚ := g.coords.map Prod.fst

/-- Latitudes of a geometry. -/
def Geom.lats (g : Geom) : List ℚ := g.coords.map Prod.snd

/-- Extent maximum longitude: ol.extent.getBottomRight(ex)[0]. -/
def extentMaxLon (g : Geom) : ℚ := listMax g.lons

/-- Extent minimum longitude: ol.extent.getBottomLeft(ex)[0]. -/
def extentMinLon (g : Geom) : ℚ := listMin g.lons

/-- Extent maximum latitude: ol.extent.getTopRight(ex)[1]. -/
def extentMaxLat (g : Geom) : ℚ := listMax g.lats

/-- Extent minimum latitude: ol.extent.getBottomRight(ex)[1]. -/
def extentMinLat (g : Geom) : ℚ := listMin g.lats

/-- First loop of AstroGeometry.transformDanglers:
while (x < 0) { x = x + 360; } -/
def danglerUp (x : ℚ) : ℚ :=
  if h : x < 0 then danglerUp (x + 360) else x
termination_by (Int.ceil (-x / 360)).toNat
decreasing_by
  have h1 : (1 : ℤ) ≤ Int.ceil (-x / 360) := by
    rw [Int.le_ceil_iff]
    push_cast
    have hx : (0 : ℚ) < -x := by linarith
    have : (0 : ℚ) < -x / 360 := div_pos hx (by norm_num)
    linarith
  have h2 : Int.ceil (-(x + 360) / 360) = Int.ceil (-x / 360) - 1 := by
    have : -(x + 360) / 360 = -x / 360 - 1 := by ring
    rw [this]
    exact_mod_cast Int.ceil_sub_int (-x / 360) 1
  omega

/-- Second loop of AstroGeometry.transformDanglers:
while (x > 360) { x = x - 360; } -/
def danglerDown (x : ℚ) : ℚ :=
  if h : x > 360 then danglerDown (x - 360) else x
termination_by (Int.ceil (x / 360)).toNat
decreasing_by
  have h1 : (2 : ℤ) ≤ Int.ceil (x / 360) := by
    rw [Int.le_ceil_iff]
    push_cast
    have : (1 : ℚ) < x / 360 := by
      rw [lt_div_iff₀ (by norm_num : (0:ℚ) < 360)]
      linarith
    linarith
  have h2 : Int.ceil ((x - 360) / 360) = Int.ceil (x / 360) - 1 := by
    have : (x - 360) / 360 = x / 360 - 1 := by ring
    rw [this]
    exact_mod_cast Int.ceil_sub_int (x / 360) 1
  omega

/-- AstroGeometry.transformDanglers: brings the longitude of a point
into canonical range by repeatedly adding 360 while negative and then
repeatedly subtracting 360 while above 360; the latitude is untouched. -/
def transformDanglers (p : ℚ × ℚ) : ℚ × ℚ :=
  (danglerDown (danglerUp p.1), p.2)

/-- Map a point-to-point transform over every coordinate of a geometry
(ol geometry.transform applies the registered coordinate transform to
each vertex). -/
def Geom.mapCoords (f : ℚ × ℚ → ℚ × ℚ) : Geom → Geom
  | .point p => .point (f p)
  | .multipoint ps => .multipoint (ps.map f)
  | .linestring ps => .linestring (ps.map f)
  | .multilinestring ls => .multilinestring (ls.map (List.map f))
  | .polygon ring => .polygon (ring.map f)
  | .multipolygon rings => .multipolygon (rings.map (List.map f))

/-- AstroGeometry.undangle: transforms the geometry through the
registered 'undangle' projection, i.e. applies transformDanglers to
every vertex. -/
def undangle (g : Geom) : Geom := g.mapCoords transformDanglers

/-- The cylindrical branch of AstroGeometry.crossesDateline.  For
POLYGON and LINESTRING the raw longitude extent [minX, maxX] is tested
against the bounds rule ((maxX > 360 and minX < 360) or (minX < 0 and
maxX > 0)); the commented-out left-most-least rule is not used.  For
MULTIPOLYGON: any child crossing, or one child whose extent touches
longitude 0 on the left and another touching 360 on the right (clean
split signature).  POINT and MULTIPOINT always return false, as does
the final else branch (which MULTILINESTRING falls into). -/
def crossesBoundsRule (ps : List (ℚ × ℚ)) : Bool :=
  let maxX := listMax (ps.map Prod.fst)
  let minX := listMin (ps.map Prod.fst)
  (maxX > 360 && minX < 360) || (minX < 0 && maxX > 0)

/-- Dispatch of AstroGeometry.crossesDateline over the geometry type in
the cylindrical case (the recursive call on a MULTIPOLYGON child is a
call on a POLYGON, i.e. the bounds rule on the child ring). -/
def crossesDatelineCylindrical (g : Geom) : Bool :=
  match g with
  | .polygon ring => crossesBoundsRule ring
  | .linestring ps => crossesBoundsRule ps
  | .multipolygon rings =>
    (rings.any fun r => crossesBoundsRule r) ||
      ((rings.any fun r => listMin (r.map Prod.fst) == 0) &&
       (rings.any fun r => listMax (r.map Prod.fst) == 360))
  | .point _ | .multipoint _ => false
  | .multilinestring _ => false

/-- Skip test of AstroGeometry.saturatePointArray for one consecutive
vertex pair: duplicate points, or an edge whose two endpoints both lie
on the 0/360 meridian (a line to the pole). -/
def skipPoint (p q : ℚ × ℚ) : Bool :=
  (p.1 == q.1 && p.2 == q.2) ||
    ((p.1 == 0 || p.1 == 360) && (q.1 == 0 || q.1 == 360))

/-- The 16 points that AstroGeometry.saturatePointArray emits for one
non-skipped edge from p to q (the midpoint-cascade interpolation
written out in the source: mid, q, qqq, e, eee, eeeee, eeeeeee and the
eight further averages). -/
def saturateEdge (p q : ℚ × ℚ) : List (ℚ × ℚ) :=
  let midLon := (p.1 + q.1) / 2
  let midLat := (p.2 + q.2) / 2
  let qLon := (p.1 + midLon) / 2
  let qLat := (p.2 + midLat) / 2
  let qqqLon := (q.1 + midLon) / 2
  let qqqLat := (q.2 + midLat) / 2
  let eLon := (p.1 + qLon) / 2
  let eLat := (p.2 + qLat) / 2
  let eeeLon := (midLon + qLon) / 2
  let eeeLat := (midLat + qLat) / 2
  let eeeeeLon := (midLon + qqqLon) / 2
  let eeeeeLat := (midLat + qqqLat) / 2
  let eeeeeeeLon := (q.1 + qqqLon) / 2
  let eeeeeeeLat := (q.2 + qqqLat) / 2
  [ p,
    ((p.1 + eLon) / 2, (p.2 + eLat) / 2),
    (eLon, eLat),
    ((qLon + eLon) / 2, (qLat + eLat) / 2),
    (qLon, qLat),
    ((qLon + eeeLon) / 2, (qLat + eeeLat) / 2),
    (eeeLon, eeeLat),
    ((midLon + eeeLon) / 2, (midLat + eeeLat) / 2),
    (midLon, midLat),
    ((midLon + eeeeeLon) / 2, (midLat + eeeeeLat) / 2),
    (eeeeeLon, eeeeeLat),
    ((qqqLon + eeeeeLon) / 2, (qqqLat + eeeeeLat) / 2),
    (qqqLon, qqqLat),
    ((qqqLon + eeeeeeeLon) / 2, (qqqLat + eeeeeeeLat) / 2),
    (eeeeeeeLon, eeeeeeeLat),
    ((q.1 + eeeeeeeLon) / 2, (q.2 + eeeeeeeLat) / 2) ]

/-- AstroGeometry.saturatePointArray: for every consecutive vertex
pair, emit the start vertex followed by 15 interpolated points (16 per
edge), or only the start vertex when the pair is skipped; finally the
last input vertex is appended. -/
def saturatePointArray : List (ℚ × ℚ) → List (ℚ × ℚ)
  | [] => []
  | [p] => [p]
  | p :: q :: rest =>
    (if skipPoint p q then [p] else saturateEdge p q) ++
      saturatePointArray (q :: rest)

/-- Ring-level rule of AstroGeometry.warpWkt for POLYGON/LINESTRING
point arrays: saturate when there are at most 16 points, otherwise the
geometry is dense enough and is returned unchanged. -/
def warpRing (ps : List (ℚ × ℚ)) : List (ℚ × ℚ) :=
  if ps.length ≤ 16 then saturatePointArray ps else ps

/-- AstroGeometry.warpWkt: POINT/MULTIPOINT pass through; POLYGON,
LINESTRING and each child of MULTIPOLYGON/MULTILINESTRING are saturated
when they have at most 16 points. -/
def warpWkt : Geom → Geom
  | .point p => .point p
  | .multipoint ps => .multipoint ps
  | .polygon ring => .polygon (warpRing ring)
  | .linestring ps => .linestring (warpRing ps)
  | .multipolygon rings => .multipolygon (rings.map warpRing)
  | .multilinestring ls => .multilinestring (ls.map warpRing)

/-- Accumulator of the POLYGON branch of AstroGeometry.splitOnDateline:
the two output sub-rings (poly[1], poly[2]), which one is current
(polyNum, false for 1 and true for 2), the recorded ring points
(polyRingPoint, only slot 2 is ever read back), the pole corner pair
(pollLatLon) and the number of crossings seen (datelineCrosses). -/
structure SplitState where
  poly1 : List (ℚ × ℚ)
  poly2 : List (ℚ × ℚ)
  cur : Bool
  ring1 : Option (ℚ × ℚ)
  ring2 : Option (ℚ × ℚ)
  poll : (ℚ × ℚ) × (ℚ × ℚ)
  crosses : ℕ

/-- Append a vertex to the current sub-ring. -/
def SplitState.push (s : SplitState) (pt : ℚ × ℚ) : SplitState :=
  if s.cur then { s with poly2 := s.poly2 ++ [pt] }
  else { s with poly1 := s.poly1 ++ [pt] }

/-- Record polyRingPoint[polyNum] for the current sub-ring. -/
def SplitState.setRing (s : SplitState) (pt : ℚ × ℚ) : SplitState :=
  if s.cur then { s with ring2 := some pt } else { s with ring1 := some pt }

/-- Latitude where the segment from (lon, lat) to (nextLon, nextLat)
meets the dateline, by the point-slope computation of the cylindrical
case of the source (the lon that is smaller gets 360 added so the
segment does not wrap).  The source divides JS numbers; in the
(unreachable for spans under 360 degrees) case of a zero denominator
the rational division below yields 0 where JS would yield infinity. -/
def datelineLat (lon lat nextLon nextLat : ℚ) : ℚ :=
  if lon > nextLon then
    lat + ((nextLat - lat) / ((360 + nextLon) - lon)) * (360 - lon)
  else
    lat + ((nextLat - lat) / (nextLon - (360 + lon))) * (360 - (360 + lon))

/-- One iteration of the coordinate walk of the POLYGON branch of
AstroGeometry.splitOnDateline (cylindrical case), for a vertex p that
has a successor q.  When the longitude delta exceeds 180 in absolute
value, a crossing is recorded: the current vertex and a synthetic
dateline vertex are pushed on the current sub-ring, the pole corner
pair is set (the cylindrical case takes the non-north values 0 -90 /
360 -90), the current sub-ring is toggled, and the mirrored synthetic
vertex is pushed and recorded on the other sub-ring. -/
def splitStep (s : SplitState) (p q : ℚ × ℚ) : SplitState :=
  if q.1 - p.1 > 180 ∨ q.1 - p.1 < -180 then
    let newLat := datelineLat p.1 p.2 q.1 q.2
    let s := { s with crosses := s.crosses + 1 }
    let s := s.push p
    if q.1 - p.1 > 180 then
      let s := s.push (0, newLat)
      let s := { s with poll := ((0, -90), (360, -90)) }
      let s := { s with cur := !s.cur }
      let s := s.push (360, newLat)
      s.setRing (360, newLat)
    else
      let s := s.push (360, newLat)
      let s := { s with poll := ((360, -90), (0, -90)) }
      let s := { s with cur := !s.cur }
      let s := s.push (0, newLat)
      s.setRing (0, newLat)
  else
    s.push p

/-- The coordinate loop of the POLYGON branch: every vertex with a
successor goes through splitStep; the last vertex (whose nextLon is
undefined in JS, making both crossing comparisons false) is pushed on
the current sub-ring. -/
def splitWalk (s : SplitState) : List (ℚ × ℚ) → SplitState
  | [] => s
  | [p] => s.push p
  | p :: q :: rest => splitWalk (splitStep s p q) (q :: rest)

/-- One consecutive pair matching the already-split test of the POLYGON
branch: both latitudes at the same pole and the longitudes jumping the
seam (360 to 0, 0 to 360, 720 to 360, or 0 to -360). -/
def poleJumpPair (p q : ℚ × ℚ) : Bool :=
  ((p.2 == 90 && q.2 == 90) || (p.2 == -90 && q.2 == -90)) &&
    ((p.1 == 360 && q.1 == 0) || (p.1 == 0 && q.1 == 360) ||
     (p.1 == 720 && q.1 == 360) || (p.1 == 0 && q.1 == -360))

/-- Whether some consecutive vertex pair triggers the already-split
early return (the source returns from inside the loop at the first such
pair, discarding the accumulators, which is equivalent). -/
def hasPoleJump : List (ℚ × ℚ) → Bool
  | p :: q :: rest => poleJumpPair p q || hasPoleJump (q :: rest)
  | _ => false

/-- The POLYGON branch of AstroGeometry.splitOnDateline in the
cylindrical projection: the ring is undangled, the already-split test
may return it unchanged, otherwise the coordinate walk runs and the
result is assembled: no second sub-ring gives the single ring wrapped,
exactly one crossing reconnects the two sub-rings through the two pole
corner points into one ring, and two or more crossings close the second
sub-ring with its recorded ring point and return both rings.  (The
getD junk default is unreachable: a nonempty poly2 implies ring2 was
recorded.) -/
def splitPolygonCylindrical (ring : List (ℚ × ℚ)) : Geom :=
  let ring := ring.map transformDanglers
  if hasPoleJump ring then .polygon ring
  else
    let s0 : SplitState :=
      { poly1 := [], poly2 := [], cur := false, ring1 := ring.head?,
        ring2 := none, poll := ((0, 0), (0, 0)), crosses := 0 }
    let s := splitWalk s0 ring
    if s.poly2 = [] then .multipolygon [s.poly1]
    else if s.crosses = 1 then
      .multipolygon [s.poly1 ++ [s.poll.1, s.poll.2] ++ s.poly2]
    else .multipolygon [s.poly1, s.poly2 ++ [s.ring2.getD (0, 0)]]

/-- The LINESTRING branch of AstroGeometry.splitOnDateline in the
cylindrical projection.  A linestring that does not cross the dateline
(per crossesDateline) is returned unchanged (some of the input).  When
the crossing test passes, the source branch throws before producing
anything: its first statement is new OpenLayers.Format.GeoJSON(), an
OpenLayers-2 class that does not exist in this OpenLayers-4-only
repository (the branch goes on to call wktParse.read/write and
geometry.splitWith, equally absent from ol.format.WKT and ol.geom), so
at runtime the call raises a ReferenceError instead of returning a
split MULTILINESTRING.  none models that thrown error. -/
def splitLinestringCylindrical (ps : List (ℚ × ℚ)) : Option Geom :=
  if ¬ crossesDatelineCylindrical (.linestring ps) then some (.linestring ps)
  else none

/-- AstroGeometry.splitOnDateline in the cylindrical projection.
POINT/MULTIPOINT are returned unchanged.  Each MULTIPOLYGON child is
split recursively (a POLYGON result contributes itself, a MULTIPOLYGON
result contributes its components).  The LINESTRING arm delegates to
splitLinestringCylindrical; its none case is a thrown exception in the
source, so this total dispatcher's getD default there is a formal
filler that no theorem asserts anything about - the Option-valued
function carries the faithful semantics.  The MULTILINESTRING branch of
the source likewise throws (it calls geometry.getPolygons() on a
MultiLineString, a method that does not exist); no claim exercises it
and it is represented here as the identity. -/
def splitOnDatelineCylindrical : Geom → Geom
  | .polygon ring => splitPolygonCylindrical ring
  | .linestring ps => (splitLinestringCylindrical ps).getD (.linestring ps)
  | .multipolygon rings =>
    .multipolygon (rings.flatMap fun r =>
      match splitPolygonCylindrical r with
      | .polygon r' => [r']
      | .multipolygon rs => rs
      | _ => [])
  | .multilinestring ls => .multilinestring ls
  | .point p => .point p
  | .multipoint ps => .multipoint ps

/-- Whether every consecutive vertex pair of the list fails the
crossing test of the splitOnDateline walk (longitude delta within
[-180, 180]). -/
def deltasSmall : List (ℚ × ℚ) → Bool
  | p :: q :: rest =>
    !(decide (q.1 - p.1 > 180) || decide (q.1 - p.1 < -180)) &&
      deltasSmall (q :: rest)
  | _ => true

/-- Even 16-fold subdivision of the edge from p towards q: the j-th
point lies on the segment at parameter j/16 (q itself excluded).  This
is the spec-side description of one densified edge, to be compared with
saturateEdge. -/
def uniform16 (p q : ℚ × ℚ) : List (ℚ × ℚ) :=
  (List.range 16).map fun j =>
    (p.1 + (j : ℚ) / 16 * (q.1 - p.1), p.2 + (j : ℚ) / 16 * (q.2 - p.2))

/-- Whether a linestring component starts or ends at a seam vertex of
longitude 0 or 360 with latitude 15 (the interpolated seam latitude the
C2 claim sentence asserts for LINESTRING(350 10, 10 20)). -/
def seamBoundary (l : List (ℚ × ℚ)) : Bool :=
  decide (l.head? = some ((0 : ℚ), (15 : ℚ))) ||
  decide (l.head? = some ((360 : ℚ), (15 : ℚ))) ||
  decide (l.getLast? = some ((0 : ℚ), (15 : ℚ))) ||
  decide (l.getLast? = some ((360 : ℚ), (15 : ℚ)))

/-- The outcome asserted by the C2 claim sentence: a MultiLineString of
exactly two components, each terminating or starting at longitude 0 or
360 at the interpolated seam latitude 15. -/
def claimC2Outcome (g : Geom) : Bool :=
  match g with
  | .multilinestring [l1, l2] => seamBoundary l1 && seamBoundary l2
  | _ => false

/-- The three map projections. -/
inductive Projection where
  | cylindrical
  | northPolarStereographic
  | southPolarStereographic
  deriving DecidableEq, Repr

end AstroGeometry

namespace AstroVector

open AstroGeometry

/-- AstroVector.prototype.isDrawable: always drawable in cylindrical;
in north-polar stereographic the test is ol.extent.getBottomRight(ex)[1]
> 60, i.e. the extent MINIMUM latitude above 60; in south-polar
stereographic it is ol.extent.getTopRight(ex)[1] < -60, i.e. the extent
MAXIMUM latitude below -60. -/
def isDrawable (g : Geom) : Projection → Bool
  | .cylindrical => true
  | .northPolarStereographic => extentMinLat g > 60
  | .southPolarStereographic => extentMaxLat g < -60

/-- The undangle condition of the cylindrical branch of
AstroVector.prototype.draw: (exWidth > 360) or both extent longitudes
above 360 or both below 0 (brX is the extent maximum longitude, blX the
minimum, exWidth their difference). -/
def drawUndangles (g : Geom) : Prop :=
  extentMaxLon g - extentMinLon g > 360 ∨
    (extentMaxLon g > 360 ∧ extentMinLon g > 360) ∨
    (extentMaxLon g < 0 ∧ extentMinLon g < 0)

instance (g : Geom) : Decidable (drawUndangles g) := by
  unfold drawUndangles
  infer_instance

/-- The searchWKT computation of the cylindrical branch of
AstroVector.prototype.draw: the input is undangled only when the
drawUndangles condition holds; otherwise the input is stored as
searchWKT unchanged. -/
def drawSearchWKTCylindrical (g : Geom) : Geom :=
  if drawUndangles g then undangle g else g

end AstroVector

namespace AstroGeometry

open Real

/-- The two poles a polar stereographic projection can be centered on
(the source selects by the projection strings 'north-polar
stereographic' / 'south-polar stereographic'). -/
inductive Pole where
  | north
  | south
  deriving DecidableEq, Repr

/-- JS Math.atan2(y, x), modelled by the argument of the complex number
x + y i (range (-pi, pi]).  The reals carry no signed zeros, so the
four JS corner cases atan2 of (+-0, +-0) collapse to the single origin,
where Complex.arg is 0: that agrees with JS Math.atan2(+0, +0) and
diverges from the other three signed-zero corners (JS
Math.atan2(+0, -0) is pi, for instance).  Every theorem below applies
atan2 either away from the origin, where the model agrees with JS
exactly, or at an input whose JS double evaluation produces the
(+0, +0) corner. -/
noncomputable def atan2 (y x : ℝ) : ℝ :=
  Complex.arg (Complex.ofReal x + Complex.ofReal y * Complex.I)

/-- AstroGeometry.transformLatLonToPolarMeters: forward polar
stereographic transform of a (lon, lat) degree pair for a body of polar
radius caxisradius kilometers, R = caxisradius * 1000 meters.  North:
x = 2R tan(pi/4 - lat/2) sin lon, y = -2R tan(pi/4 - lat/2) cos lon;
south: x = 2R tan(pi/4 + lat/2) sin lon, y = 2R tan(pi/4 + lat/2)
cos lon. -/
noncomputable def transformLatLonToPolarMeters (p : ℝ × ℝ) (pole : Pole)
    (caxisradius : ℝ) : ℝ × ℝ :=
  let R := caxisradius * 1000
  let lonRadians := p.1 * π / 180
  let latRadians := p.2 * π / 180
  match pole with
  | .north =>
    (2 * R * Real.tan (π / 4 - latRadians / 2) * Real.sin lonRadians,
     -(2 * R) * Real.tan (π / 4 - latRadians / 2) * Real.cos lonRadians)
  | .south =>
    (2 * R * Real.tan (π / 4 + latRadians / 2) * Real.sin lonRadians,
     2 * R * Real.tan (π / 4 + latRadians / 2) * Real.cos lonRadians)

/-- AstroGeometry.transformPolarMetersToLatLon: the inverse transform.
Longitude from atan2(x, -y) (north) or atan2(x, y) (south), normalized
into [0, 360) by adding 360 when negative; latitude from the inverse
stereographic colatitude formula lat = asin(cos c * sin clat) with
p = sqrt(x^2 + y^2), c = 2 atan(p / (2R)) and clat the projection
pole. -/
noncomputable def transformPolarMetersToLatLon (pt : ℝ × ℝ) (pole : Pole)
    (caxisradius : ℝ) : ℝ × ℝ :=
  let R := caxisradius * 1000
  let x := pt.1
  let y := pt.2
  let clat : ℝ := match pole with | .north => 90 | .south => -90
  let lonRadians := match pole with
    | .north => atan2 x (-y)
    | .south => atan2 x y
  let clatRadians := clat * π / 180
  let p := Real.sqrt (x ^ 2 + y ^ 2)
  let c := 2 * Real.arctan (p / (2 * R))
  let latRadians := Real.arcsin (Real.cos c * Real.sin clatRadians)
  let lat := latRadians * 180 / π
  let lon0 := lonRadians * 180 / π
  let lon := if lon0 < 0 then lon0 + 360 else lon0
  (lon, lat)

/-- The dateline test segment of the polar branch of
AstroGeometry.crossesDateline meeting a projected extent
(minX, minY, maxX, maxY): the segment runs from (0, 0) to
(0, -2357032) for north and from (0, 0) to (0, 2357032) for south, and
OpenLayers LineString.intersectsExtent is geometric intersection with
the (closed) extent rectangle, i.e. interval overlap on both axes for
this vertical segment. -/
def datelineSegmentMeetsExtent (pole : Pole) (minX minY maxX maxY : ℝ) : Prop :=
  match pole with
  | .north => minX ≤ 0 ∧ 0 ≤ maxX ∧ minY ≤ 0 ∧ -2357032 ≤ maxY
  | .south => minX ≤ 0 ∧ 0 ≤ maxX ∧ minY ≤ 2357032 ∧ 0 ≤ maxY

/-- Maximum of a list of reals (junk 0 for the empty list, which the
source never produces as an extent). -/
noncomputable def listMaxR : List ℝ → ℝ
  | [] => 0
  | x :: xs => xs.foldl max x

/-- Minimum of a list of reals. -/
noncomputable def listMinR : List ℝ → ℝ
  | [] => 0
  | x :: xs => xs.foldl min x

/-- The polar branch of AstroGeometry.crossesDateline: the geometry
(given by its coordinate list, in lat/lon degrees) is transformed to
polar stereographic meters with the map body's caxisradius, and the
dateline segment is intersected with the projected extent. -/
noncomputable def crossesDatelinePolar (pole : Pole) (coords : List (ℝ × ℝ))
    (caxisradius : ℝ) : Prop :=
  let projected := coords.map (fun p => transformLatLonToPolarMeters p pole caxisradius)
  datelineSegmentMeetsExtent pole
    (listMinR (projected.map Prod.fst)) (listMinR (projected.map Prod.snd))
    (listMaxR (projected.map Prod.fst)) (listMaxR (projected.map Prod.snd))

/-- The do-while loop of AstroGeometry.LatLonToKM (Vincenty inverse
formula) with the surviving iteration budget as fuel (iterLimit starts
at 100).  Each pass recomputes the trigonometric quantities from the
current lambda; sinSigma = 0 returns 0 for co-incident points; the
isNaN(cos2SigmaM) guard of the source (a 0/0 for an equatorial line)
is the cosSqAlpha = 0 case; the loop exits either when the lambda
update moved less than 1e-12 (then the distance is computed from this
pass's values) or when the decremented iterLimit reaches 0 (then the
source returns the NaN sentinel, modelled as none). -/
noncomputable def vincentyGo (f L sinU1 cosU1 sinU2 cosU2 a b : ℝ) :
    ℕ → ℝ → Option ℝ
  | 0, _ => none
  | n + 1, lambda =>
    let sinLambda := Real.sin lambda
    let cosLambda := Real.cos lambda
    let sinSigma := Real.sqrt ((cosU2 * sinLambda) * (cosU2 * sinLambda) +
      (cosU1 * sinU2 - sinU1 * cosU2 * cosLambda) *
        (cosU1 * sinU2 - sinU1 * cosU2 * cosLambda))
    if sinSigma = 0 then some 0
    else
      let cosSigma := sinU1 * sinU2 + cosU1 * cosU2 * cosLambda
      let sigma := atan2 sinSigma cosSigma
      let sinAlpha := cosU1 * cosU2 * sinLambda / sinSigma
      let cosSqAlpha := 1 - sinAlpha * sinAlpha
      let cos2SigmaM := if cosSqAlpha = 0 then 0
        else cosSigma - 2 * sinU1 * sinU2 / cosSqAlpha
      let C := f / 16 * cosSqAlpha * (4 + f * (4 - 3 * cosSqAlpha))
      let lambdaNew := L + (1 - C) * f * sinAlpha *
        (sigma + C * sinSigma *
          (cos2SigmaM + C * cosSigma * (-1 + 2 * cos2SigmaM * cos2SigmaM)))
      if |lambdaNew - lambda| > 1 / 1000000000000 then
        if n = 0 then none
        else vincentyGo f L sinU1 cosU1 sinU2 cosU2 a b n lambdaNew
      else
        let uSq := cosSqAlpha * (a * a - b * b) / (b * b)
        let bigA := 1 + uSq / 16384 *
          (4096 + uSq * (-768 + uSq * (320 - 175 * uSq)))
        let bigB := uSq / 1024 * (256 + uSq * (-128 + uSq * (74 - 47 * uSq)))
        let deltaSigma := bigB * sinSigma * (cos2SigmaM + bigB / 4 *
          (cosSigma * (-1 + 2 * cos2SigmaM * cos2SigmaM) -
           bigB / 6 * cos2SigmaM * (-3 + 4 * sinSigma * sinSigma) *
             (-3 + 4 * cos2SigmaM * cos2SigmaM)))
        some (b * bigA * (sigma - deltaSigma))

/-- AstroGeometry.LatLonToKM: Vincenty-style inverse distance between
two lat/lon degree points on the body with radii aaxisradius and
caxisradius.  The source hardcodes the flattening f to 0 (the
ellipsoidal expression (a - b) / a is commented out).  none models the
NaN non-convergence sentinel.  The final toFixed(3) display rounding
(1 mm) of the source is not modelled. -/
noncomputable def LatLonToKM (lat1 lon1 lat2 lon2 aaxisradius caxisradius : ℝ) :
    Option ℝ :=
  let a := aaxisradius
  let b := caxisradius
  let f : ℝ := 0
  let L := (lon2 - lon1) * π / 180
  let U1 := Real.arctan ((1 - f) * Real.tan (lat1 * π / 180))
  let U2 := Real.arctan ((1 - f) * Real.tan (lat2 * π / 180))
  vincentyGo f L (Real.sin U1) (Real.cos U1) (Real.sin U2) (Real.cos U2)
    a b 100 L

/-! Helper lemmas about the dangler loops. -/

theorem danglerUp_nonneg (x : ℚ) : 0 ≤ danglerUp x := by
  induction x using danglerUp.induct with
  | case1 x h ih =>
    rw [danglerUp]
    simpa [h] using ih
  | case2 x h =>
    rw [danglerUp]
    simp [h]
    linarith

theorem danglerUp_eq_of_nonneg {x : ℚ} (h : 0 ≤ x) : danglerUp x = x := by
  rw [danglerUp]
  simp [not_lt.mpr h]

theorem danglerUp_le {x : ℚ} (h : x ≤ 360) : danglerUp x ≤ 360 := by
  induction x using danglerUp.induct with
  | case1 x hx ih =>
    rw [danglerUp]
    simp only [hx, dite_true]
    exact ih (by linarith)
  | case2 x hx =>
    rw [danglerUp]
    simpa [hx] using h

theorem danglerUp_shift (x : ℚ) : ∃ k : ℤ, danglerUp x = x + 360 * k := by
  induction x using danglerUp.induct with
  | case1 x hx ih =>
    obtain ⟨k, hk⟩ := ih
    refine ⟨k + 1, ?_⟩
    rw [danglerUp]
    simp only [hx, dite_true]
    rw [hk]
    push_cast
    ring
  | case2 x hx =>
    refine ⟨0, ?_⟩
    rw [danglerUp]
    simp [hx]

theorem danglerDown_le (x : ℚ) : danglerDown x ≤ 360 := by
  induction x using danglerDown.induct with
  | case1 x h ih =>
    rw [danglerDown]
    simpa [h] using ih
  | case2 x h =>
    rw [danglerDown]
    simp [h]
    linarith

theorem danglerDown_eq_of_le {x : ℚ} (h : x ≤ 360) : danglerDown x = x := by
  rw [danglerDown]
  simp [not_lt.mpr h]

theorem danglerDown_nonneg {x : ℚ} (h : 0 ≤ x) : 0 ≤ danglerDown x := by
  induction x using danglerDown.induct with
  | case1 x hx ih =>
    rw [danglerDown]
    simp only [hx, dite_true]
    exact ih (by linarith)
  | case2 x hx =>
    rw [danglerDown]
    simpa [hx] using h

theorem danglerDown_shift (x : ℚ) : ∃ k : ℤ, danglerDown x = x + 360 * k := by
  induction x using danglerDown.induct with
  | case1 x hx ih =>
    obtain ⟨k, hk⟩ := ih
    refine ⟨k - 1, ?_⟩
    rw [danglerDown]
    simp only [hx, dite_true]
    rw [hk]
    push_cast
    ring
  | case2 x hx =>
    refine ⟨0, ?_⟩
    rw [danglerDown]
    simp [hx]

/-- The composed dangler loops land in the closed interval [0, 360]
(360 is a fixed point of both loops). -/
theorem transformDanglers_fst_mem (p : ℚ × ℚ) :
    0 ≤ (transformDanglers p).1 ∧ (transformDanglers p).1 ≤ 360 :=
  ⟨danglerDown_nonneg (danglerUp_nonneg p.1), danglerDown_le _⟩

theorem transformDanglers_fst_shift (p : ℚ × ℚ) :
    ∃ k : ℤ, (transformDanglers p).1 = p.1 + 360 * k := by
  obtain ⟨k1, hk1⟩ := danglerUp_shift p.1
  obtain ⟨k2, hk2⟩ := danglerDown_shift (danglerUp p.1)
  refine ⟨k1 + k2, ?_⟩
  show danglerDown (danglerUp p.1) = _
  rw [hk2, hk1]
  push_cast
  ring

theorem transformDanglers_snd (p : ℚ × ℚ) :
    (transformDanglers p).2 = p.2 := rfl

theorem transformDanglers_eq_self {p : ℚ × ℚ} (h0 : 0 ≤ p.1)
    (h1 : p.1 ≤ 360) : transformDanglers p = p := by
  show (danglerDown (danglerUp p.1), p.2) = p
  rw [danglerUp_eq_of_nonneg h0, danglerDown_eq_of_le h1]

theorem coords_mapCoords (f : ℚ × ℚ → ℚ × ℚ) (g : Geom) :
    (g.mapCoords f).coords = g.coords.map f := by
  cases g <;> simp [Geom.mapCoords, Geom.coords, List.map_flatMap,
    List.flatMap_map, List.flatMap]

/-- When no consecutive pair of the remaining vertex list triggers the
crossing test and the current sub-ring is poly 1, the walk just appends
every vertex to poly 1. -/
theorem splitWalk_no_cross : ∀ (ps : List (ℚ × ℚ)) (s : SplitState),
    deltasSmall ps = true → s.cur = false →
    splitWalk s ps = { s with poly1 := s.poly1 ++ ps }
  | [], s, _, _ => by simp [splitWalk]
  | [p], s, _, hcur => by
    simp [splitWalk, SplitState.push, hcur]
  | p :: q :: rest, s, hsmall, hcur => by
    simp only [deltasSmall, Bool.and_eq_true, Bool.not_eq_true',
      Bool.or_eq_false_iff, decide_eq_false_iff_not] at hsmall
    rw [splitWalk, splitStep,
      if_neg (by push_neg; exact ⟨not_lt.mp hsmall.1.1, not_lt.mp hsmall.1.2⟩)]
    rw [splitWalk_no_cross (q :: rest) _ hsmall.2 (by simp [SplitState.push, hcur])]
    simp [SplitState.push, hcur, List.append_assoc]

/-! Helper lemmas about saturatePointArray. -/

/-- The midpoint cascade of saturateEdge is exactly the even 16-fold
subdivision of the edge. -/
theorem uniform16_length (p q : ℚ × ℚ) : (uniform16 p q).length = 16 := by
  rw [uniform16]
  rw [List.length_map]
  exact List.length_range 16

theorem saturateEdge_eq_uniform16 (p q : ℚ × ℚ) :
    saturateEdge p q = uniform16 p q := by
  simp only [saturateEdge, uniform16, List.range_succ, List.range_zero,
    List.map_append, List.map_cons, List.map_nil, List.nil_append,
    List.cons_append, List.append_nil, List.append_assoc]
  norm_num [Prod.ext_iff]
  constructor <;> ring_nf <;> norm_num

theorem saturatePointArray_ne_nil : ∀ (ps : List (ℚ × ℚ)), ps ≠ [] →
    saturatePointArray ps ≠ []
  | [p], _ => by simp [saturatePointArray]
  | p :: q :: rest, _ => by
    rw [saturatePointArray]
    simp only [ne_eq, List.append_eq_nil]
    rintro ⟨h1, -⟩
    revert h1
    split <;> simp [saturateEdge]

theorem saturatePointArray_head : ∀ (ps : List (ℚ × ℚ)),
    (saturatePointArray ps).head? = ps.head?
  | [] => rfl
  | [p] => rfl
  | p :: q :: rest => by
    rw [saturatePointArray]
    rw [List.head?_append_of_ne_nil]
    · split
      · rfl
      · rfl
    · split <;> simp [saturateEdge]

theorem saturatePointArray_getLast : ∀ (ps : List (ℚ × ℚ)), ps ≠ [] →
    (saturatePointArray ps).getLast? = ps.getLast?
  | [p], _ => rfl
  | p :: q :: rest, _ => by
    rw [saturatePointArray]
    rw [List.getLast?_append_of_ne_nil _
      (saturatePointArray_ne_nil (q :: rest) (by simp))]
    rw [saturatePointArray_getLast (q :: rest) (by simp)]
    rw [List.getLast?_cons_cons]

/-! Helper lemmas for the polar stereographic round trip. -/

/-- atan2 recovers the angle of a point given in polar form with a
positive radius, for angles in (-pi, pi]. -/
theorem atan2_t_sin_cos {t θ : ℝ} (ht : 0 < t) (hθ : θ ∈ Set.Ioc (-π) π) :
    atan2 (t * Real.sin θ) (t * Real.cos θ) = θ := by
  unfold atan2
  have h : (Complex.ofReal (t * Real.cos θ) +
      Complex.ofReal (t * Real.sin θ) * Complex.I)
      = (t : ℂ) * (Complex.cos θ + Complex.sin θ * Complex.I) := by
    push_cast [Complex.ofReal_cos, Complex.ofReal_sin]
    ring
  rw [h, Complex.arg_mul_cos_add_sin_mul_I ht hθ]

/-- In degrees: atan2 applied to a positive multiple of
(sin lon, cos lon), scaled back by 180 over pi, returns lon itself for
lon up to 180 and lon - 360 beyond (the branch cut of atan2). -/
theorem atan2_sin_cos_deg {t lon : ℝ} (ht : 0 < t) (h1 : 0 ≤ lon)
    (h2 : lon < 360) :
    atan2 (t * Real.sin (lon * π / 180)) (t * Real.cos (lon * π / 180)) * 180 / π
      = if lon ≤ 180 then lon else lon - 360 := by
  have hπ := Real.pi_pos
  have hπ0 : π ≠ 0 := ne_of_gt hπ
  by_cases hc : lon ≤ 180
  · rw [atan2_t_sin_cos ht ⟨by nlinarith, by nlinarith⟩, if_pos hc]
    field_simp
  · have hs : Real.sin (lon * π / 180) = Real.sin ((lon - 360) * π / 180) := by
      rw [show (lon - 360) * π / 180 = lon * π / 180 - 2 * π by ring,
        Real.sin_sub_two_pi]
    have hco : Real.cos (lon * π / 180) = Real.cos ((lon - 360) * π / 180) := by
      rw [show (lon - 360) * π / 180 = lon * π / 180 - 2 * π by ring,
        Real.cos_sub_two_pi]
    rw [hs, hco, atan2_t_sin_cos ht ⟨by nlinarith, by nlinarith⟩, if_neg hc]
    field_simp

/-- atan2 at the origin is 0 (as JS Math.atan2 for +0 arguments). -/
theorem atan2_zero_zero : atan2 0 (-0 : ℝ) = 0 := by
  unfold atan2
  norm_num

/-- North-pole round trip for interior latitudes: exact recovery. -/
theorem polar_roundtrip_north (lon lat c : ℝ) (h1 : 0 ≤ lon) (h2 : lon < 360)
    (h3 : -90 < lat) (h4 : lat < 90) (h5 : 0 < c) :
    transformPolarMetersToLatLon
      (transformLatLonToPolarMeters (lon, lat) .north c) .north c = (lon, lat) := by
  have hπ := Real.pi_pos
  have hπ0 : π ≠ 0 := ne_of_gt hπ
  have hR : (0 : ℝ) < c * 1000 := by positivity
  have hα0 : 0 < π / 4 - lat * π / 180 / 2 := by nlinarith
  have hα1 : π / 4 - lat * π / 180 / 2 < π / 2 := by nlinarith
  have htan : 0 < Real.tan (π / 4 - lat * π / 180 / 2) :=
    Real.tan_pos_of_pos_of_lt_pi_div_two hα0 hα1
  have ht : 0 < 2 * (c * 1000) * Real.tan (π / 4 - lat * π / 180 / 2) := by
    positivity
  simp only [transformLatLonToPolarMeters, transformPolarMetersToLatLon]
  have e1 : -(-(2 * (c * 1000)) * Real.tan (π / 4 - lat * π / 180 / 2) *
      Real.cos (lon * π / 180)) =
      2 * (c * 1000) * Real.tan (π / 4 - lat * π / 180 / 2) *
        Real.cos (lon * π / 180) := by ring
  rw [e1, atan2_sin_cos_deg ht h1 h2]
  have hsc := Real.sin_sq_add_cos_sq (lon * π / 180)
  have e2 : (2 * (c * 1000) * Real.tan (π / 4 - lat * π / 180 / 2) *
        Real.sin (lon * π / 180)) ^ 2 +
      (-(2 * (c * 1000)) * Real.tan (π / 4 - lat * π / 180 / 2) *
        Real.cos (lon * π / 180)) ^ 2 =
      (2 * (c * 1000) * Real.tan (π / 4 - lat * π / 180 / 2)) ^ 2 := by
    linear_combination
      (2 * (c * 1000) * Real.tan (π / 4 - lat * π / 180 / 2)) ^ 2 * hsc
  rw [e2, Real.sqrt_sq ht.le]
  have e3 : 2 * (c * 1000) * Real.tan (π / 4 - lat * π / 180 / 2) /
      (2 * (c * 1000)) = Real.tan (π / 4 - lat * π / 180 / 2) := by
    field_simp
  rw [e3, Real.arctan_tan (by linarith) hα1]
  rw [show 2 * (π / 4 - lat * π / 180 / 2) = π / 2 - lat * π / 180 by ring,
    Real.cos_pi_div_two_sub]
  rw [show (90 : ℝ) * π / 180 = π / 2 by ring, Real.sin_pi_div_two, mul_one]
  rw [Real.arcsin_sin (by nlinarith) (by nlinarith)]
  have e4 : lat * π / 180 * 180 / π = lat := by field_simp
  rw [e4, Prod.mk.injEq]
  refine ⟨?_, rfl⟩
  by_cases hc : lon ≤ 180
  · simp only [hc, ite_true]
    rw [if_neg (not_lt.mpr h1)]
  · simp only [hc, ite_false]
    rw [if_pos (by linarith)]
    ring

/-- South-pole round trip for interior latitudes: exact recovery. -/
theorem polar_roundtrip_south (lon lat c : ℝ) (h1 : 0 ≤ lon) (h2 : lon < 360)
    (h3 : -90 < lat) (h4 : lat < 90) (h5 : 0 < c) :
    transformPolarMetersToLatLon
      (transformLatLonToPolarMeters (lon, lat) .south c) .south c = (lon, lat) := by
  have hπ := Real.pi_pos
  have hπ0 : π ≠ 0 := ne_of_gt hπ
  have hR : (0 : ℝ) < c * 1000 := by positivity
  have hα0 : 0 < π / 4 + lat * π / 180 / 2 := by nlinarith
  have hα1 : π / 4 + lat * π / 180 / 2 < π / 2 := by nlinarith
  have htan : 0 < Real.tan (π / 4 + lat * π / 180 / 2) :=
    Real.tan_pos_of_pos_of_lt_pi_div_two hα0 hα1
  have ht : 0 < 2 * (c * 1000) * Real.tan (π / 4 + lat * π / 180 / 2) := by
    positivity
  simp only [transformLatLonToPolarMeters, transformPolarMetersToLatLon]
  rw [atan2_sin_cos_deg ht h1 h2]
  have hsc := Real.sin_sq_add_cos_sq (lon * π / 180)
  have e2 : (2 * (c * 1000) * Real.tan (π / 4 + lat * π / 180 / 2) *
        Real.sin (lon * π / 180)) ^ 2 +
      (2 * (c * 1000) * Real.tan (π / 4 + lat * π / 180 / 2) *
        Real.cos (lon * π / 180)) ^ 2 =
      (2 * (c * 1000) * Real.tan (π / 4 + lat * π / 180 / 2)) ^ 2 := by
    linear_combination
      (2 * (c * 1000) * Real.tan (π / 4 + lat * π / 180 / 2)) ^ 2 * hsc
  rw [e2, Real.sqrt_sq ht.le]
  have e3 : 2 * (c * 1000) * Real.tan (π / 4 + lat * π / 180 / 2) /
      (2 * (c * 1000)) = Real.tan (π / 4 + lat * π / 180 / 2) := by
    field_simp
  rw [e3, Real.arctan_tan (by linarith) hα1]
  rw [show 2 * (π / 4 + lat * π / 180 / 2) = π / 2 - -(lat * π / 180) by ring,
    Real.cos_pi_div_two_sub, Real.sin_neg]
  rw [show (-90 : ℝ) * π / 180 = -(π / 2) by ring, Real.sin_neg,
    Real.sin_pi_div_two]
  rw [show -Real.sin (lat * π / 180) * -1 = Real.sin (lat * π / 180) by ring]
  rw [Real.arcsin_sin (by nlinarith) (by nlinarith)]
  have e4 : lat * π / 180 * 180 / π = lat := by field_simp
  rw [e4, Prod.mk.injEq]
  refine ⟨?_, rfl⟩
  by_cases hc : lon ≤ 180
  · simp only [hc, ite_true]
    rw [if_neg (not_lt.mpr h1)]
  · simp only [hc, ite_false]
    rw [if_pos (by linarith)]
    ring

end AstroGeometry

section Claims

open AstroGeometry AstroVector

/-- C7 (amended): undangle maps every longitude of the input geometry
into the CLOSED interval [0, 360] by repeated addition or subtraction
of 360 (a longitude of exactly 360, or a larger multiple of 360, ends
at 360, not 0), and changes nothing else: every latitude is unchanged
and the vertices are transformed pointwise in place, so vertex count
and order are preserved. -/
theorem claim_C7_amended (g : Geom) :
    (undangle g).coords = g.coords.map transformDanglers ∧
    ∀ p ∈ g.coords,
      (transformDanglers p).2 = p.2 ∧
      0 ≤ (transformDanglers p).1 ∧ (transformDanglers p).1 ≤ 360 ∧
      ∃ k : ℤ, (transformDanglers p).1 = p.1 + 360 * k := by
  refine ⟨coords_mapCoords _ _, fun p _ => ?_⟩
  exact ⟨transformDanglers_snd p, (transformDanglers_fst_mem p).1,
    (transformDanglers_fst_mem p).2, transformDanglers_fst_shift p⟩

/-- Witness for C7 at the geometry POINT(720 10). -/
theorem claim_C7_witness :
    (transformDanglers ((720 : ℚ), (10 : ℚ))).2 = (10 : ℚ) ∧
    0 ≤ (transformDanglers ((720 : ℚ), (10 : ℚ))).1 ∧
    (transformDanglers ((720 : ℚ), (10 : ℚ))).1 ≤ 360 ∧
    ∃ k : ℤ, (transformDanglers ((720 : ℚ), (10 : ℚ))).1 = 720 + 360 * k :=
  (claim_C7_amended (Geom.point (720, 10))).2 (720, 10) (by decide)

/-- C7 (counterexample): undangle maps POINT(360 5) to itself, so the
output longitude 360 is not in the half-open interval [0, 360) the
claim asserts. -/
theorem claim_C7_counterexample :
    undangle (Geom.point (360, 5)) = Geom.point (360, 5) ∧
    ¬ ((360 : ℚ) < 360) := by
  constructor
  · show Geom.point (transformDanglers (360, 5)) = _
    rw [transformDanglers_eq_self (by norm_num) (by norm_num)]
  · norm_num

/-- C5 (amended): isDrawable is always true under cylindrical; under
north-polar stereographic it is true exactly when the geometry's
MINIMUM latitude exceeds 60 (the source reads
ol.extent.getBottomRight(ex)[1], the extent minimum latitude); under
south-polar stereographic exactly when the MAXIMUM latitude is below
-60.  For single points minimum and maximum coincide, so a point at
latitude 61 is drawable in north-polar and one at 59 is not, and
symmetrically at -61 and -59 for south-polar. -/
theorem claim_C5_amended (g : Geom) :
    isDrawable g .cylindrical = true ∧
    (isDrawable g .northPolarStereographic = true ↔ 60 < extentMinLat g) ∧
    (isDrawable g .southPolarStereographic = true ↔ extentMaxLat g < -60) := by
  refine ⟨rfl, ?_, ?_⟩ <;> simp [isDrawable]

/-- C5 (counterexample): a linestring from latitude 50 to latitude 70
has maximum latitude 70, above 60, yet isDrawable returns false for it
under north-polar stereographic (the code tests the minimum latitude,
50, not the maximum). -/
theorem claim_C5_counterexample :
    isDrawable (Geom.linestring [(0, 50), (0, 70)])
      .northPolarStereographic = false ∧
    60 < extentMaxLat (Geom.linestring [(0, 50), (0, 70)]) := by decide

/-- C2 (amended): crossesDateline judges LINESTRING(350 10, 10 20)
non-crossing under cylindrical (its raw longitude extent [10, 350]
never exceeds the 0/360 bounds), so splitOnDateline returns it
unchanged rather than splitting it.  Moreover no LINESTRING input can
produce the seam-split MultiLineString the claim describes: an input
that does pass the crossing test (one whose coordinates extend beyond
the [0, 360] bounds, such as the dangled equivalent
LINESTRING(350 10, 370 20)) reaches a branch whose first statement
constructs an OpenLayers-2 object absent from this OpenLayers-4
repository, so the source throws there instead of splitting (the
error value none of the branch model). -/
theorem claim_C2_amended :
    crossesDatelineCylindrical (Geom.linestring [(350, 10), (10, 20)]) = false ∧
    splitOnDatelineCylindrical (Geom.linestring [(350, 10), (10, 20)]) =
      Geom.linestring [(350, 10), (10, 20)] ∧
    splitLinestringCylindrical [(350, 10), (370, 20)] = none := by
  refine ⟨by decide, by decide, by decide⟩

/-- C2 (counterexample): splitOnDateline applied to
LINESTRING(350 10, 10 20) under cylindrical does not produce the
two-component seam-split MultiLineString the claim asserts. -/
theorem claim_C2_counterexample :
    claimC2Outcome
      (splitOnDatelineCylindrical (Geom.linestring [(350, 10), (10, 20)])) =
      false := by decide

end Claims

section ClaimsDensify

open AstroGeometry

/-- C8 (confirmed): for a 4-vertex polygon ring (closed with its fifth,
repeated, vertex) none of whose edges is a duplicate pair or a
0/360-meridian pair, warpWkt saturates every edge into exactly 16
points, each lying on the original straight edge at parameter j/16, for
a total of 4 x 16 ring vertices plus the repeated closing vertex; and a
Polygon or LineString with more than 16 points is returned unchanged. -/
theorem claim_C8_densify :
    (∀ p0 p1 p2 p3 : ℚ × ℚ,
      skipPoint p0 p1 = false → skipPoint p1 p2 = false →
      skipPoint p2 p3 = false → skipPoint p3 p0 = false →
      warpWkt (Geom.polygon [p0, p1, p2, p3, p0]) =
        Geom.polygon (uniform16 p0 p1 ++ uniform16 p1 p2 ++
          uniform16 p2 p3 ++ uniform16 p3 p0 ++ [p0]) ∧
      (uniform16 p0 p1 ++ uniform16 p1 p2 ++ uniform16 p2 p3 ++
          uniform16 p3 p0 ++ [p0]).length = 4 * 16 + 1) ∧
    (∀ ring : List (ℚ × ℚ), 16 < ring.length →
      warpWkt (Geom.polygon ring) = Geom.polygon ring) ∧
    (∀ ps : List (ℚ × ℚ), 16 < ps.length →
      warpWkt (Geom.linestring ps) = Geom.linestring ps) := by
  refine ⟨fun p0 p1 p2 p3 h01 h12 h23 h30 => ⟨?_, ?_⟩,
    fun ring h => ?_, fun ps h => ?_⟩
  · show Geom.polygon (warpRing [p0, p1, p2, p3, p0]) = _
    rw [warpRing, if_pos (by simp)]
    simp [saturatePointArray, h01, h12, h23, h30, saturateEdge_eq_uniform16,
      List.append_assoc]
  · simp only [List.length_append, uniform16_length, List.length_cons,
      List.length_nil]
  · show Geom.polygon (warpRing ring) = _
    rw [warpRing, if_neg (by omega)]
  · show Geom.linestring (warpRing ps) = _
    rw [warpRing, if_neg (by omega)]

/-- Witness for C8: the unit square with corners (10,10), (20,10),
(20,20), (10,20) and, for the pass-through part, rings of 17 equal
points. -/
theorem claim_C8_witness :
    (warpWkt (Geom.polygon [((10 : ℚ), (10 : ℚ)), (20, 10), (20, 20),
        (10, 20), (10, 10)]) =
      Geom.polygon (uniform16 (10, 10) (20, 10) ++ uniform16 (20, 10) (20, 20) ++
        uniform16 (20, 20) (10, 20) ++ uniform16 (10, 20) (10, 10) ++
        [(10, 10)]) ∧
     (uniform16 ((10 : ℚ), (10 : ℚ)) (20, 10) ++ uniform16 (20, 10) (20, 20) ++
        uniform16 (20, 20) (10, 20) ++ uniform16 (10, 20) (10, 10) ++
        [(10, 10)]).length = 4 * 16 + 1) ∧
    warpWkt (Geom.polygon (List.replicate 17 ((0 : ℚ), (0 : ℚ)))) =
      Geom.polygon (List.replicate 17 ((0 : ℚ), (0 : ℚ))) ∧
    warpWkt (Geom.linestring (List.replicate 17 ((0 : ℚ), (0 : ℚ)))) =
      Geom.linestring (List.replicate 17 ((0 : ℚ), (0 : ℚ))) :=
  ⟨claim_C8_densify.1 _ _ _ _ (by decide) (by decide) (by decide) (by decide),
   claim_C8_densify.2.1 _ (by simp),
   claim_C8_densify.2.2 _ (by simp)⟩

/-- C10 (confirmed): saturatePointArray preserves both endpoints of any
point array with at least two points, and consequently warpWkt maps a
closed ring (first vertex equal to last vertex) to a closed ring. -/
theorem claim_C10_endpoints :
    (∀ ps : List (ℚ × ℚ), 2 ≤ ps.length →
      (saturatePointArray ps).head? = ps.head? ∧
      (saturatePointArray ps).getLast? = ps.getLast?) ∧
    (∀ ring : List (ℚ × ℚ), ring.head? = ring.getLast? →
      (warpRing ring).head? = (warpRing ring).getLast?) := by
  constructor
  · intro ps hlen
    have hne : ps ≠ [] := by
      cases ps
      · simp at hlen
      · simp
    exact ⟨saturatePointArray_head ps, saturatePointArray_getLast ps hne⟩
  · intro ring hclosed
    rw [warpRing]
    split
    · cases ring with
      | nil => simp [saturatePointArray]
      | cons a rest =>
        rw [saturatePointArray_head, saturatePointArray_getLast _ (by simp)]
        exact hclosed
    · exact hclosed

/-- Witness for C10 at the two-point array (0,0),(1,1) and the
degenerate closed ring with the single vertex (5,5). -/
theorem claim_C10_witness :
    ((saturatePointArray [((0 : ℚ), (0 : ℚ)), (1, 1)]).head? =
        [((0 : ℚ), (0 : ℚ)), (1, 1)].head? ∧
      (saturatePointArray [((0 : ℚ), (0 : ℚ)), (1, 1)]).getLast? =
        [((0 : ℚ), (0 : ℚ)), (1, 1)].getLast?) ∧
    (warpRing [((5 : ℚ), (5 : ℚ))]).head? =
      (warpRing [((5 : ℚ), (5 : ℚ))]).getLast? :=
  ⟨claim_C10_endpoints.1 _ (by decide), claim_C10_endpoints.2 _ (by decide)⟩

end ClaimsDensify

section ClaimsSplit

open AstroGeometry

/-- C3 (amended): a LineString with crossesDateline false is returned
by splitOnDateline unchanged.  A Polygon ring with crossesDateline
false is returned trivially wrapped as a one-child MultiPolygon with no
vertex added, removed, or moved PROVIDED additionally that its
longitudes already lie within [0, 360] (the branch undangles first,
which moves out-of-range vertices), that no consecutive longitude delta
exceeds 180 in absolute value (a wider, still non-crossing, polygon
trips the crossing walk), and that no consecutive pair matches the
pole-jump early return. -/
theorem claim_C3_amended :
    (∀ ps : List (ℚ × ℚ),
      crossesDatelineCylindrical (Geom.linestring ps) = false →
      splitOnDatelineCylindrical (Geom.linestring ps) = Geom.linestring ps) ∧
    (∀ ring : List (ℚ × ℚ),
      crossesDatelineCylindrical (Geom.polygon ring) = false →
      (∀ p ∈ ring, 0 ≤ p.1 ∧ p.1 ≤ 360) →
      deltasSmall ring = true →
      hasPoleJump ring = false →
      splitOnDatelineCylindrical (Geom.polygon ring) =
        Geom.multipolygon [ring]) := by
  constructor
  · intro ps h
    simp [splitOnDatelineCylindrical, splitLinestringCylindrical, h]
  · intro ring _ hin hsmall hpole
    have hmap : ring.map transformDanglers = ring := by
      rw [show ring.map transformDanglers = ring.map id from
        List.map_congr_left fun p hp =>
          transformDanglers_eq_self (hin p hp).1 (hin p hp).2]
      exact List.map_id ring
    simp only [splitOnDatelineCylindrical]
    rw [splitPolygonCylindrical]
    simp only [hmap, hpole, Bool.false_eq_true, if_false]
    rw [splitWalk_no_cross ring _ hsmall rfl]
    simp

/-- Witness for C3: the non-crossing linestring (10 0, 20 0) and the
in-range small-delta square ring (10 10, 20 10, 20 20, 10 20, 10 10). -/
theorem claim_C3_witness :
    splitOnDatelineCylindrical (Geom.linestring [(10, 0), (20, 0)]) =
      Geom.linestring [(10, 0), (20, 0)] ∧
    splitOnDatelineCylindrical
        (Geom.polygon [(10, 10), (20, 10), (20, 20), (10, 20), (10, 10)]) =
      Geom.multipolygon [[(10, 10), (20, 10), (20, 20), (10, 20), (10, 10)]] :=
  ⟨claim_C3_amended.1 _ (by decide),
   claim_C3_amended.2 _ (by decide) (by decide)
     (by norm_num [deltasSmall]) (by decide)⟩

/-- C3 (counterexample): the polygon ring (10 0, 350 0, 350 30, 10 30,
10 0) spans 340 degrees of longitude; crossesDateline is false for it,
yet splitOnDateline returns a TWO-component MultiPolygon with synthetic
seam vertices - neither the ring unchanged nor the ring trivially
wrapped. -/
theorem claim_C3_counterexample :
    crossesDatelineCylindrical
      (Geom.polygon [(10, 0), (350, 0), (350, 30), (10, 30), (10, 0)]) = false ∧
    splitOnDatelineCylindrical
      (Geom.polygon [(10, 0), (350, 0), (350, 30), (10, 30), (10, 0)]) =
      Geom.multipolygon [[(10, 0), (0, 0), (0, 30), (10, 30), (10, 0)],
        [(360, 0), (350, 0), (350, 30), (360, 30), (360, 0)]] ∧
    Geom.multipolygon [[((10 : ℚ), (0 : ℚ)), (0, 0), (0, 30), (10, 30), (10, 0)],
        [(360, 0), (350, 0), (350, 30), (360, 30), (360, 0)]] ≠
      Geom.polygon [(10, 0), (350, 0), (350, 30), (10, 30), (10, 0)] ∧
    Geom.multipolygon [[((10 : ℚ), (0 : ℚ)), (0, 0), (0, 30), (10, 30), (10, 0)],
        [(360, 0), (350, 0), (350, 30), (360, 30), (360, 0)]] ≠
      Geom.multipolygon [[(10, 0), (350, 0), (350, 30), (10, 30), (10, 0)]] := by
  refine ⟨by decide, ?_, by decide, by decide⟩
  have hmap : [((10:ℚ),(0:ℚ)),(350,0),(350,30),(10,30),(10,0)].map transformDanglers
      = [((10:ℚ),(0:ℚ)),(350,0),(350,30),(10,30),(10,0)] := by
    norm_num [transformDanglers_eq_self]
  simp only [splitOnDatelineCylindrical]
  rw [splitPolygonCylindrical]
  simp only [hmap]
  norm_num [splitWalk, splitStep, SplitState.push, SplitState.setRing,
    datelineLat, hasPoleJump, poleJumpPair]
  decide

end ClaimsSplit

section ClaimsVincenty

open AstroGeometry

/-- C9 (confirmed): the Vincenty loop of LatLonToKM is budgeted at 100
iterations (the iterLimit fuel of the embedding) and, because the
source hardcodes the flattening f to 0, the lambda update returns L on
the very first pass, so the 1e-12 convergence test succeeds at once:
for every pair of input points and radii the function returns a real
distance (some r) and never the NaN non-convergence sentinel (none),
and it cannot throw (it is a total function). -/
theorem claim_C9_vincenty (lat1 lon1 lat2 lon2 a b : ℝ) :
    ∃ r : ℝ, LatLonToKM lat1 lon1 lat2 lon2 a b = some r := by
  rw [← Option.ne_none_iff_exists']
  rw [LatLonToKM]
  rw [show (100 : ℕ) = 99 + 1 from rfl]
  rw [vincentyGo]
  split_ifs with h1 h2
  · simp
  · exact h2.elim
  · rw [if_neg (by norm_num)]
    simp

end ClaimsVincenty

section ClaimsCrossesPoint

open AstroGeometry

/-- C4 (code bug evaluation): under cylindrical, crossesDateline indeed
returns false for every POINT and MULTIPOINT, as its own doc comment
promises ("for points, this function will always return false").  But
the polar branch has no point special case: it projects the geometry
and intersects the synthetic dateline segment with the projected
extent, so a POINT lying on the dateline meridian is reported as
crossing.  At the failing input POINT(0 90) under north-polar
stereographic the projected point is exactly (0, 0), the start of the
dateline segment, and the intersection test holds for every body
radius. -/
theorem claim_C4_point_dateline :
    (∀ p : ℚ × ℚ, crossesDatelineCylindrical (Geom.point p) = false) ∧
    (∀ ps : List (ℚ × ℚ),
      crossesDatelineCylindrical (Geom.multipoint ps) = false) ∧
    (∀ caxisradius : ℝ,
      crossesDatelinePolar Pole.north [((0 : ℝ), 90)] caxisradius) := by
  refine ⟨fun p => rfl, fun ps => rfl, fun caxisradius => ?_⟩
  have hxy : transformLatLonToPolarMeters ((0 : ℝ), 90) .north caxisradius =
      (0, 0) := by
    simp only [transformLatLonToPolarMeters]
    norm_num
    have h1 : Real.pi / 4 - 90 * Real.pi / 180 / 2 = 0 := by ring
    rw [h1, Real.tan_zero]
    norm_num
  simp only [crossesDatelinePolar, List.map_cons, List.map_nil, hxy]
  simp [listMaxR, listMinR, datelineSegmentMeetsExtent]

end ClaimsCrossesPoint

section ClaimsPolar

open AstroGeometry Real

/-- C1 (amended): for every longitude in [0, 360), every latitude
STRICTLY between -90 and 90, both poles and any positive polar radius,
the inverse meters-to-lat/lon transform composed with the forward
lat/lon-to-meters transform reproduces (lon, lat) EXACTLY in the
idealized real-number semantics (hence well within 1e-6 degrees).  The
two latitude endpoints must be excluded: at the projection's own pole
(lat = 90 north / -90 south) the forward transform collapses every
longitude to the plane origin, so the longitude cannot in general be
recovered there (what the inverse returns at the origin is fixed by
zero-sign conventions, e.g. longitude 90 at the north pole comes back
as 0), and at the antipodal pole the tangent in the forward formula is
unbounded. -/
theorem claim_C1_amended (lon lat caxisradius : ℝ) (pole : Pole)
    (h1 : 0 ≤ lon) (h2 : lon < 360) (h3 : -90 < lat) (h4 : lat < 90)
    (h5 : 0 < caxisradius) :
    transformPolarMetersToLatLon
      (transformLatLonToPolarMeters (lon, lat) pole caxisradius) pole
      caxisradius = (lon, lat) := by
  cases pole
  · exact polar_roundtrip_north lon lat caxisradius h1 h2 h3 h4 h5
  · exact polar_roundtrip_south lon lat caxisradius h1 h2 h3 h4 h5

/-- Witness for C1 at lon = 90, lat = 0, north pole, radius 1 km. -/
theorem claim_C1_witness :
    transformPolarMetersToLatLon
      (transformLatLonToPolarMeters ((90 : ℝ), 0) .north 1) .north 1 =
      (90, 0) :=
  claim_C1_amended 90 0 1 .north (by norm_num) (by norm_num) (by norm_num)
    (by norm_num) (by norm_num)

/-- C1 (counterexample): at the north pole itself, (lon, lat) =
(90, 90), the forward transform gives (0, 0) and the inverse returns
longitude 0, which differs from 90 by far more than 1e-6 degrees (the
latitude is still reproduced).  The input (90, 90) is one where the
JS double evaluation agrees with this real-number model: in doubles
90 * Math.PI / 180 equals Math.PI / 2 exactly, the forward transform
yields the signed zeros (+0, -0) (the tangent factor is +0 and
Math.cos(Math.PI / 2) is a small POSITIVE double, so -0 times it stays
-0), and the inverse computes Math.atan2(+0, +0) = 0 - the one
zero-zero corner where JS and Complex.arg coincide.  (At longitudes
whose cosine evaluates negative, such as 180, the JS signed-zero
arithmetic instead lands on Math.atan2(+0, -0) = pi and the code
happens to reproduce the longitude; such inputs are NOT
counterexamples in the source.) -/
theorem claim_C1_counterexample :
    transformPolarMetersToLatLon
      (transformLatLonToPolarMeters ((90 : ℝ), 90) .north 1) .north 1 =
      (0, 90) ∧
    ¬ |(0 : ℝ) - 90| ≤ 1 / 1000000 := by
  constructor
  · have hfwd : transformLatLonToPolarMeters ((90 : ℝ), 90) .north 1 =
        (0, 0) := by
      simp only [transformLatLonToPolarMeters]
      rw [show π / 4 - 90 * π / 180 / 2 = 0 by ring, Real.tan_zero]
      norm_num
    rw [hfwd]
    simp only [transformPolarMetersToLatLon]
    rw [atan2_zero_zero]
    rw [show (90 : ℝ) * π / 180 = π / 2 by ring]
    norm_num [Real.arctan_zero, Real.sin_pi_div_two, Real.arcsin_one]
    field_simp
    ring
  · rw [abs_of_nonpos (by norm_num)]
    norm_num

end ClaimsPolar
